import Mathlib

/-!
Shallow embedding of src/server.js (alexisEML/video-backend), the
media-processing request pipeline: upload intake, the POST /process and
POST /thumbnail handlers, the transcode and thumbnail engine invocations,
and the safeUnlink cleanup helper.  External effects (the ffmpeg engine,
the filesystem, the clock) are modelled as explicit oracle parameters;
machine behaviour of JavaScript identifier resolution is modelled by an
explicit scope list, because the handler references the identifier
timestamp which no enclosing scope binds.
-/

namespace VideoBackend

/-- JSON-shaped values appearing in response bodies. -/
inductive JVal where
  | jstr (s : String)
  | jnum (n : Nat)
  | jbool (b : Bool)
  | jnull
  | jobj (fields : List (String × JVal))
deriving Repr

/-- An HTTP response: status code plus a JSON object body given as an
ordered field list, mirroring the object literals passed to res.json. -/
structure Response where
  status : Nat
  body : List (String × JVal)

/-- Field lookup in a response body (JSON object member access). -/
def getField (body : List (String × JVal)) (k : String) : Option JVal :=
  (body.find? (fun e => e.1 == k)).map (fun e => e.2)

/-- The filesystem, as an association list from absolute paths to file
contents (file bytes are modelled as a String). -/
def FS := List (String × String)

/-- fs.existsSync on the modelled filesystem. -/
def fsExists (p : String) (fs : FS) : Bool :=
  fs.any (fun e => e.1 == p)

/-- fs.readFileSync, returning none where Node would throw ENOENT. -/
def fsRead (p : String) (fs : FS) : Option String :=
  (fs.find? (fun e => e.1 == p)).map (fun e => e.2)

/-- Writing a file: replaces any previous content at the path. -/
def fsWrite (p c : String) (fs : FS) : FS :=
  (p, c) :: fs.filter (fun e => e.1 != p)

/-- Removing a path from the filesystem. -/
def fsRemove (p : String) (fs : FS) : FS :=
  fs.filter (fun e => e.1 != p)

/-- Errors a JavaScript expression can throw in the handlers: a
ReferenceError from an unbound identifier, an error event from the
external ffmpeg engine, or an ordinary Error with a message. -/
inductive JsError where
  | referenceError (name : String)
  | engineError (msg : String)
  | jsError (msg : String)
deriving Repr

/-- The error.message field read in the catch blocks. -/
def JsError.message : JsError → String
  | .referenceError n => n ++ " is not defined"
  | .engineError m => m
  | .jsError m => m

/-- fs.unlinkSync with a failure oracle: the oracle says which paths the
operating system refuses to delete (Node throws there). -/
def unlinkSync (fail : String → Bool) (p : String) (fs : FS) :
    Except JsError FS :=
  if fail p then .error (.jsError ("EPERM: operation not permitted, unlink " ++ p))
  else .ok (fsRemove p fs)

/-- The body of safeUnlink before its catch: if (fs.existsSync(filePath))
fs.unlinkSync(filePath).  A null argument is covered by the none case,
since fs.existsSync(null) returns false rather than throwing. -/
def safeUnlinkTry (fail : String → Bool) (p : Option String) (fs : FS) :
    Except JsError FS :=
  match p with
  | none => .ok fs
  | some q => if fsExists q fs then unlinkSync fail q fs else .ok fs

/-- safeUnlink from src/server.js lines 128 to 137: the try/catch absorbs
any unlink exception, logging it and leaving the filesystem as it was. -/
def safeUnlink (fail : String → Bool) (p : Option String) (fs : FS) : FS :=
  match safeUnlinkTry fail p fs with
  | .ok fs2 => fs2
  | .error _ => fs

/-- JavaScript globals visible from any scope in the module. -/
def jsGlobals : List String :=
  ["require", "console", "process", "Date", "Promise", "JSON", "Buffer",
   "Math", "module", "exports", "__dirname", "__filename"]

/-- Identifiers bound at module level in src/server.js: the require
bindings, the derived constants and the declared functions. -/
def moduleScope : List String :=
  ["express", "multer", "cors", "ffmpeg", "fs", "path", "app",
   "uploadDir", "outputDir", "upload", "safeUnlink", "PORT"] ++ jsGlobals

/-- Identifiers in scope inside the transcode promise executor of the
POST /process handler at the point the drawtext options object is built
(line 200): the executor parameters, the handler parameters, and the
local paths and filenames declared before the await, over the module
scope. -/
def processExecutorScope : List String :=
  ["resolve", "reject", "req", "res", "inputPath", "outputPath",
   "thumbnailPath", "outputFilename", "thumbnailFilename"] ++ moduleScope

/-- JavaScript identifier resolution: an identifier found in the scope
chain evaluates (its runtime value is irrelevant here, so the name
stands for it); an unbound identifier throws a ReferenceError. -/
def lookupVar (scope : List String) (x : String) : Except JsError String :=
  if scope.contains x then .ok x else .error (.referenceError x)

/-- The drawtext filter options object of lines 198 to 208.  Building the
object literal evaluates the identifier timestamp in the given scope, so
the construction itself can throw. -/
structure DrawtextOpts where
  fontfile : String
  text : String
  fontsize : Nat
  fontcolor : String
  box : Nat
  boxcolor : String
  boxborderw : Nat
  x : String
  y : Nat

/-- Evaluation of the drawtext options literal at line 198: every field is
a constant except text, which reads the identifier timestamp from the
scope chain. -/
def drawtextOptions (scope : List String) : Except JsError DrawtextOpts :=
  match lookupVar scope "timestamp" with
  | .error e => .error e
  | .ok v =>
      .ok { fontfile := "/usr/share/fonts/truetype/dejavu/DejaVuSans-Bold.ttf",
            text := v, fontsize := 24, fontcolor := "white", box := 1,
            boxcolor := "black@0.5", boxborderw := 5,
            x := "(w-text_w)-10", y := 10 }

/-- The fixed transcode profile set on the ffmpeg chain of lines 210 to
217: container, codecs, resolution, frame rate and bitrates. -/
structure TranscodeProfile where
  videoCodec : String
  audioCodec : String
  format : String
  size : String
  fps : Nat
  videoBitrate : String
  audioBitrate : String

/-- The constant profile from the POST /process ffmpeg chain. -/
def transcodeProfile : TranscodeProfile :=
  { videoCodec := "libx264", audioCodec := "aac", format := "mp4",
    size := "1280x720", fps := 30,
    videoBitrate := "2000k", audioBitrate := "128k" }

/-- The fixed thumbnail extraction parameters shared by both handlers:
seek offset 1 second, exactly 1 frame, 320x240, image2 format, and a
30 second timeout. -/
structure ThumbSpec where
  seekSecs : Nat
  frames : Nat
  size : String
  format : String
  timeoutSecs : Nat

/-- The constant thumbnail parameters from lines 246 to 252 and 338 to
344. -/
def thumbSpec : ThumbSpec :=
  { seekSecs := 1, frames := 1, size := "320x240", format := "image2",
    timeoutSecs := 30 }

/-- Oracle for the external collaborators of one request: the terminal
events of the two ffmpeg invocations, the file contents they produce,
and which unlink calls the operating system refuses. -/
structure EngineOracle where
  transcodeEnds : Bool
  transcodeOutput : Option String
  transcodeErrMsg : String
  thumbEnds : Bool
  thumbOutput : Option String
  thumbErrMsg : String
  unlinkFails : String → Bool

/-- Per-request environment reads: the configured directories, the two
Date.now() readings used for the output and thumbnail filenames, and the
new Date().toISOString() value placed in response bodies. -/
structure Env where
  outputDir : String
  uploadDir : String
  nowOut : Nat
  nowThumb : Nat
  isoNow : String

/-- path.join as used here: directory slash filename. -/
def pathJoin (dir file : String) : String := dir ++ "/" ++ file

/-- The output filename of line 185: processed_ then Date.now() then
.mp4. -/
def processedName (now : Nat) : String :=
  "processed_" ++ toString now ++ ".mp4"

/-- The thumbnail filename of lines 187 and 330: thumbnail_ then
Date.now() then .jpg. -/
def thumbName (now : Nat) : String :=
  "thumbnail_" ++ toString now ++ ".jpg"

/-- The outputPath a POST /process request computes at line 186. -/
def processOutPath (env : Env) : String :=
  pathJoin env.outputDir (processedName env.nowOut)

/-- The thumbnailPath a POST /process request computes at line 188. -/
def processThumbPath (env : Env) : String :=
  pathJoin env.outputDir (thumbName env.nowThumb)

/-- Result of running one promise executor that may start the engine:
how many engine invocations were actually started, and the settled
promise. -/
structure StepOut where
  starts : Nat
  settled : Except JsError FS

/-- The transcode promise of lines 194 to 233.  The executor first builds
the drawtext options object; if that throws (unbound identifier), the
promise rejects before ffmpeg run is ever reached.  Otherwise the engine
starts and its terminal event settles the promise; on the end event the
engine has written the output file exactly when the oracle materialises
one. -/
def transcodeRun (scope : List String) (ora : EngineOracle)
    (inputPath outputPath : String) (fs : FS) : StepOut :=
  match drawtextOptions scope with
  | .error e => { starts := 0, settled := .error e }
  | .ok _opts =>
      { starts := 1,
        settled :=
          if ora.transcodeEnds then
            match ora.transcodeOutput with
            | some c => .ok (fsWrite outputPath c fs)
            | none => .ok fs
          else .error (.engineError ora.transcodeErrMsg) }

/-- The thumbnail promise of lines 245 to 265 and 337 to 357: the engine
always starts (no unbound identifiers here); an error or timeout event
rejects, the end event resolves, having written the thumbnail exactly
when the oracle materialises one. -/
def thumbnailRun (ora : EngineOracle) (src dst : String) (fs : FS) :
    StepOut :=
  { starts := 1,
    settled :=
      if ora.thumbEnds then
        match ora.thumbOutput with
        | some c => .ok (fsWrite dst c fs)
        | none => .ok fs
      else .error (.engineError ora.thumbErrMsg) }

/-- Buffer.toString base64 is an external collaborator; the encoding is
modelled as an abstract injective placeholder, since no verified claim
inspects payload bytes. -/
def base64Enc (s : String) : String := s

/-- The try/catch around thumbnail generation in POST /process, lines
242 to 276: on any extraction error the exception is absorbed and
thumbnailBase64 stays null; on success the thumbnail is read back (when
it exists) into a data URI. -/
def processThumbStep (ora : EngineOracle) (src dst : String) (fs : FS) :
    Nat × FS × Option String :=
  match thumbnailRun ora src dst fs with
  | { starts := k, settled := .error _ } => (k, fs, none)
  | { starts := k, settled := .ok fs2 } =>
      match fsRead dst fs2 with
      | some c => (k, fs2, some ("data:image/jpeg;base64," ++ base64Enc c))
      | none => (k, fs2, none)

/-- req.file as populated by the multipart middleware: the on-disk
temporary path it wrote, the declared original name, and the byte
size. -/
structure UploadedFile where
  path : String
  originalname : String
  size : Nat

/-- The request as seen by a handler: the optional single file part and
the parsed body. -/
structure Request where
  file : Option UploadedFile
  body : JVal

/-- Everything observable about one handler run: the response sent, the
filesystem after the handler returns, the safeUnlink calls it made in
order, and how many engine invocations were started. -/
structure HandlerResult where
  response : Response
  fs : FS
  released : List (Option String)
  engineStarts : Nat

/-- The 400 body of lines 174 to 181: an error string and an echo of the
received request parts (req.files is undefined under upload.single). -/
def processMissingBody (req : Request) : List (String × JVal) :=
  [("error", .jstr "No se recibió ningún archivo de video"),
   ("received", .jobj [("body", req.body), ("files", .jnull),
                       ("file", .jnull)])]

/-- The 500 body of lines 307 to 311. -/
def processErrorBody (env : Env) (e : JsError) : List (String × JVal) :=
  [("error", .jstr "Error interno del servidor"),
   ("details", .jstr e.message),
   ("timestamp", .jstr env.isoNow)]

/-- The 200 body of lines 283 to 292. -/
def processSuccessBody (env : Env) (f : UploadedFile) (content : String)
    (thumb : Option JVal) : List (String × JVal) :=
  [("success", .jbool true),
   ("message", .jstr "Video procesado exitosamente"),
   ("originalName", .jstr f.originalname),
   ("originalSize", .jnum f.size),
   ("processedSize", .jnum content.length),
   ("processedVideo", .jstr ("data:video/mp4;base64," ++ base64Enc content)),
   ("thumbnail", thumb.getD .jnull),
   ("timestamp", .jstr env.isoNow)]

/-- The try block of the POST /process handler after intake, lines 184
to 292: transcode, verify the output exists, best-effort thumbnail, read
the output back, send the success body.  Any throw escapes to the catch
block.  Returns the engine start count alongside the outcome. -/
def processBodyRun (env : Env) (ora : EngineOracle) (f : UploadedFile)
    (fs : FS) : Nat × Except JsError (Response × FS) :=
  let inputPath := f.path
  let outputPath := processOutPath env
  let thumbnailPath := processThumbPath env
  match transcodeRun processExecutorScope ora inputPath outputPath fs with
  | { starts := k1, settled := .error e } => (k1, .error e)
  | { starts := k1, settled := .ok fs1 } =>
      if fsExists outputPath fs1 then
        match processThumbStep ora outputPath thumbnailPath fs1 with
        | (k2, fs2, thumbnailBase64) =>
            match fsRead outputPath fs2 with
            | none =>
                (k1 + k2,
                 .error (.jsError ("ENOENT: no such file or directory, open " ++ outputPath)))
            | some content =>
                (k1 + k2,
                 .ok ({ status := 200,
                        body := processSuccessBody env f content
                                  (thumbnailBase64.map JVal.jstr) }, fs2))
      else (k1, .error (.jsError "El video no se procesó correctamente"))

/-- The POST /process handler, lines 163 to 313: 400 without side effects
when no file part is present; otherwise run the try block, then on either
exit release input, output and thumbnail paths in that order (response
first, cleanup after, as in the source). -/
def processHandler (env : Env) (ora : EngineOracle) (req : Request)
    (fs : FS) : HandlerResult :=
  match req.file with
  | none =>
      { response := { status := 400, body := processMissingBody req },
        fs := fs, released := [], engineStarts := 0 }
  | some f =>
      let inputPath := f.path
      let outputPath := processOutPath env
      let thumbnailPath := processThumbPath env
      let rel := [some inputPath, some outputPath, some thumbnailPath]
      match processBodyRun env ora f fs with
      | (k, .ok (resp, fs2)) =>
          { response := resp,
            fs := safeUnlink ora.unlinkFails (some thumbnailPath)
                    (safeUnlink ora.unlinkFails (some outputPath)
                      (safeUnlink ora.unlinkFails (some inputPath) fs2)),
            released := rel, engineStarts := k }
      | (k, .error e) =>
          { response := { status := 500, body := processErrorBody env e },
            fs := safeUnlink ora.unlinkFails (some thumbnailPath)
                    (safeUnlink ora.unlinkFails (some outputPath)
                      (safeUnlink ora.unlinkFails (some inputPath) fs)),
            released := rel, engineStarts := k }

/-- The 500 body of lines 389 to 393. -/
def thumbnailErrorBody (env : Env) (e : JsError) : List (String × JVal) :=
  [("error", .jstr "Error interno del servidor generando miniatura"),
   ("details", .jstr e.message),
   ("timestamp", .jstr env.isoNow)]

/-- The try block of the POST /thumbnail handler after intake, lines 329
to 376: extract the thumbnail from the uploaded input, verify it was
created, read it back, send the success body.  Any throw, including the
rejection of the extraction promise, escapes to the catch block. -/
def thumbnailBodyRun (env : Env) (ora : EngineOracle) (f : UploadedFile)
    (fs : FS) : Nat × Except JsError (Response × FS) :=
  let inputPath := f.path
  let thumbnailPath := pathJoin env.outputDir (thumbName env.nowThumb)
  match thumbnailRun ora inputPath thumbnailPath fs with
  | { starts := k, settled := .error e } => (k, .error e)
  | { starts := k, settled := .ok fs1 } =>
      if fsExists thumbnailPath fs1 then
        match fsRead thumbnailPath fs1 with
        | none =>
            (k, .error (.jsError ("ENOENT: no such file or directory, open " ++ thumbnailPath)))
        | some c =>
            (k, .ok ({ status := 200,
                       body := [("success", .jbool true),
                                ("message", .jstr "Miniatura generada exitosamente"),
                                ("thumbnail", .jstr ("data:image/jpeg;base64," ++ base64Enc c)),
                                ("size", .jnum c.length),
                                ("timestamp", .jstr env.isoNow)] }, fs1))
      else (k, .error (.jsError "La miniatura no se generó correctamente"))

/-- The POST /thumbnail handler, lines 316 to 395: 400 without side
effects when no file part is present; otherwise run the try block, and on
either exit release the input and thumbnail paths (this handler has no
output path). -/
def thumbnailHandler (env : Env) (ora : EngineOracle) (req : Request)
    (fs : FS) : HandlerResult :=
  match req.file with
  | none =>
      { response := { status := 400,
                      body := [("error", .jstr "No se recibió ningún archivo de video")] },
        fs := fs, released := [], engineStarts := 0 }
  | some f =>
      let inputPath := f.path
      let thumbnailPath := pathJoin env.outputDir (thumbName env.nowThumb)
      let rel := [some inputPath, some thumbnailPath]
      match thumbnailBodyRun env ora f fs with
      | (k, .ok (resp, fs1)) =>
          { response := resp,
            fs := safeUnlink ora.unlinkFails (some thumbnailPath)
                    (safeUnlink ora.unlinkFails (some inputPath) fs1),
            released := rel, engineStarts := k }
      | (k, .error e) =>
          { response := { status := 500, body := thumbnailErrorBody env e },
            fs := safeUnlink ora.unlinkFails (some thumbnailPath)
                    (safeUnlink ora.unlinkFails (some inputPath) fs),
            released := rel, engineStarts := k }

/-! Concrete fixtures used to evaluate the handlers at explicit inputs. -/

/-- A concrete environment for evaluation. -/
def envX : Env :=
  { outputDir := "/tmp/outputs", uploadDir := "/tmp/uploads",
    nowOut := 11, nowThumb := 12, isoNow := "2024-12-01T00:00:00.000Z" }

/-- A concrete uploaded file as multer would record it. -/
def fileX : UploadedFile :=
  { path := "/tmp/uploads/abc123", originalname := "clip.mp4", size := 1048576 }

/-- A request carrying a video file part. -/
def reqX : Request := { file := some fileX, body := .jnull }

/-- A request carrying no file part. -/
def reqNoFile : Request := { file := none, body := .jnull }

/-- The filesystem after multer wrote the upload. -/
def fsX : FS := [("/tmp/uploads/abc123", "RAWVIDEO")]

/-- An oracle in which both engine invocations would succeed and
materialise their files, and every unlink succeeds. -/
def oraHappy : EngineOracle :=
  { transcodeEnds := true, transcodeOutput := some "TRANSCODED",
    transcodeErrMsg := "transcode failed", thumbEnds := true,
    thumbOutput := some "THUMB", thumbErrMsg := "thumb failed",
    unlinkFails := fun _ => false }

/-- An oracle in which the transcode would succeed but thumbnail
extraction fails or times out. -/
def oraThumbFail : EngineOracle :=
  { transcodeEnds := true, transcodeOutput := some "TRANSCODED",
    transcodeErrMsg := "transcode failed", thumbEnds := false,
    thumbOutput := none, thumbErrMsg := "ffmpeg was killed with signal SIGKILL",
    unlinkFails := fun _ => false }

/-- An oracle in which the transcode engine would signal success without
materialising any output file. -/
def oraNoOutput : EngineOracle :=
  { transcodeEnds := true, transcodeOutput := none,
    transcodeErrMsg := "transcode failed", thumbEnds := true,
    thumbOutput := some "THUMB", thumbErrMsg := "thumb failed",
    unlinkFails := fun _ => false }

/-! Decimal digit strings.  Date.now() is interpolated into the generated
filenames, so distinctness of filenames reduces to injectivity of the
decimal representation of Nat, proved here through an explicit decode. -/

/-- The decimal digit characters of n, most significant first, as
produced by the string interpolation of a JavaScript number (and by
Nat.repr). -/
def decDigits (n : Nat) : List Char :=
  if h : n < 10 then [Nat.digitChar n]
  else decDigits (n / 10) ++ [Nat.digitChar (n % 10)]
termination_by n
decreasing_by exact Nat.div_lt_self (by omega) (by omega)

/-- Numeric value of a decimal digit character. -/
def dval (c : Char) : Nat := c.toNat - 48

/-- Decoding a most-significant-first decimal digit list. -/
def decodeDigits (l : List Char) : Nat :=
  l.foldl (fun a c => a * 10 + dval c) 0

/-- Environments of two requests whose clock reads coincide: request A. -/
def envA : Env :=
  { outputDir := "/tmp/outputs", uploadDir := "/tmp/uploads",
    nowOut := 1733000000000, nowThumb := 1733000000000, isoNow := "TA" }

/-- Environments of two requests whose clock reads coincide: request B,
a distinct simultaneous request for a different input. -/
def envB : Env :=
  { outputDir := "/tmp/outputs", uploadDir := "/tmp/uploads",
    nowOut := 1733000000000, nowThumb := 1733000000000, isoNow := "TB" }

/-! Helper lemmas shared by the claim theorems. -/

/-- Removing a path removes it. -/
theorem fsExists_fsRemove_self (p : String) (fs : FS) :
    fsExists p (fsRemove p fs) = false := by
  simp only [fsExists, fsRemove, List.any_eq_false]
  intro x hx
  simp only [List.mem_filter, bne_iff_ne, ne_eq] at hx
  simp [hx.2]

/-- Removing a path introduces no path. -/
theorem fsExists_fsRemove_le (p q : String) (fs : FS)
    (h : fsExists p (fsRemove q fs) = true) : fsExists p fs = true := by
  simp only [fsExists, fsRemove, List.any_eq_true] at h ⊢
  obtain ⟨x, hx, hp⟩ := h
  exact ⟨x, (List.mem_filter.mp hx).1, hp⟩

/-- Removing a different path leaves a path's presence unchanged. -/
theorem fsExists_fsRemove_other (r q : String) (fs : FS)
    (h : (r == q) = false) : fsExists q (fsRemove r fs) = fsExists q fs := by
  induction fs with
  | nil => rfl
  | cons a t ih =>
      simp only [fsExists, fsRemove, List.filter] at ih ⊢
      cases ha : (a.1 != r) with
      | true =>
          simp only [List.any_cons, ih]
      | false =>
          have har : a.1 = r := by simpa using ha
          have : (a.1 == q) = false := by
            rw [har]
            exact h
          simp [List.any_cons, this, ih]

/-- The result of safeUnlink is either the unchanged filesystem or the
filesystem with the named path removed. -/
theorem safeUnlink_cases (fail : String → Bool) (p : Option String)
    (fs : FS) :
    safeUnlink fail p fs = fs ∨
      ∃ r, p = some r ∧ safeUnlink fail p fs = fsRemove r fs := by
  match p with
  | none => exact Or.inl rfl
  | some r =>
      cases he : fsExists r fs with
      | false =>
          exact Or.inl (by simp [safeUnlink, safeUnlinkTry, unlinkSync, he])
      | true =>
          cases hf : fail r with
          | true =>
              exact Or.inl
                (by simp [safeUnlink, safeUnlinkTry, unlinkSync, he, hf])
          | false =>
              exact Or.inr ⟨r, rfl,
                by simp [safeUnlink, safeUnlinkTry, unlinkSync, he, hf]⟩

/-- A safeUnlink call whose unlink the operating system allows removes
its own path. -/
theorem fsExists_safeUnlink_self (fail : String → Bool) (p : String)
    (fs : FS) (h : fail p = false) :
    fsExists p (safeUnlink fail (some p) fs) = false := by
  cases he : fsExists p fs with
  | false => simp [safeUnlink, safeUnlinkTry, unlinkSync, he]
  | true => simp [safeUnlink, safeUnlinkTry, unlinkSync, he, h,
                  fsExists_fsRemove_self]

/-- safeUnlink never creates a path: absence is preserved. -/
theorem fsExists_safeUnlink_mono (fail : String → Bool) (q : Option String)
    (p : String) (fs : FS) (h : fsExists p fs = false) :
    fsExists p (safeUnlink fail q fs) = false := by
  rcases safeUnlink_cases fail q fs with hc | ⟨r, _, hc⟩
  · rw [hc]; exact h
  · rw [hc]
    cases hx : fsExists p (fsRemove r fs) with
    | false => rfl
    | true => rw [fsExists_fsRemove_le p r fs hx] at h; exact h

/-- In the scope visible to the transcode promise executor, the
identifier timestamp is unbound, so building the drawtext options object
throws a ReferenceError. -/
theorem drawtextOptions_unbound :
    drawtextOptions processExecutorScope =
      .error (.referenceError "timestamp") := rfl

/-- The whole try block of POST /process rejects with the ReferenceError
before the engine ever starts, for every oracle, file and filesystem. -/
theorem processBodyRun_eq (env : Env) (ora : EngineOracle)
    (f : UploadedFile) (fs : FS) :
    processBodyRun env ora f fs =
      (0, .error (.referenceError "timestamp")) := by
  simp [processBodyRun, transcodeRun, drawtextOptions_unbound]

/-- Reduction of the POST /process handler on any request carrying a
file part: the catch block sends the 500 ReferenceError body, all three
paths are released, and the engine start count is zero. -/
theorem processHandler_file (env : Env) (ora : EngineOracle)
    (req : Request) (fs : FS) (f : UploadedFile) (h : req.file = some f) :
    processHandler env ora req fs =
      { response :=
          { status := 500,
            body := processErrorBody env (.referenceError "timestamp") },
        fs := safeUnlink ora.unlinkFails (some (processThumbPath env))
                (safeUnlink ora.unlinkFails (some (processOutPath env))
                  (safeUnlink ora.unlinkFails (some f.path) fs)),
        released := [some f.path, some (processOutPath env),
                     some (processThumbPath env)],
        engineStarts := 0 } := by
  simp [processHandler, h, processBodyRun_eq]

/-- One unfolding step of decDigits for small arguments. -/
theorem decDigits_small (n : Nat) (h : n < 10) :
    decDigits n = [Nat.digitChar n] := by
  rw [decDigits]
  simp [h]

/-- One unfolding step of decDigits for large arguments. -/
theorem decDigits_large (n : Nat) (h : ¬ n < 10) :
    decDigits n = decDigits (n / 10) ++ [Nat.digitChar (n % 10)] := by
  rw [decDigits]
  simp [h]

/-- Core toDigitsCore agrees with decDigits when given enough fuel. -/
theorem toDigitsCore_decDigits :
    ∀ (fuel n : Nat) (ds : List Char), n < fuel →
      Nat.toDigitsCore 10 fuel n ds = decDigits n ++ ds := by
  intro fuel
  induction fuel with
  | zero => intro n ds h; omega
  | succ f ih =>
      intro n ds h
      rw [Nat.toDigitsCore]
      by_cases h10 : n / 10 = 0
      · have hn : n < 10 := by omega
        simp [h10, decDigits_small n hn, Nat.mod_eq_of_lt hn]
      · have hn : ¬ n < 10 := by omega
        have hlt : n / 10 < f := by omega
        simp only [h10, if_false]
        rw [ih (n / 10) (Nat.digitChar (n % 10) :: ds) hlt,
            decDigits_large n hn, List.append_assoc, List.singleton_append]

/-- Nat.toDigits computes decDigits. -/
theorem toDigits_eq_decDigits (n : Nat) :
    Nat.toDigits 10 n = decDigits n := by
  unfold Nat.toDigits
  rw [toDigitsCore_decDigits (n + 1) n [] (by omega), List.append_nil]

/-- Decoding undoes a decimal digit character below ten. -/
theorem dval_digitChar (d : Nat) (h : d < 10) :
    dval (Nat.digitChar d) = d := by
  interval_cases d <;> rfl

/-- Decoding a digit list with one more digit at the end. -/
theorem decodeDigits_append_last (xs : List Char) (c : Char) :
    decodeDigits (xs ++ [c]) = decodeDigits xs * 10 + dval c := by
  simp [decodeDigits, List.foldl_append]

/-- Decoding undoes decDigits. -/
theorem decodeDigits_decDigits (n : Nat) :
    decodeDigits (decDigits n) = n := by
  induction n using Nat.strong_induction_on with
  | _ n ih =>
      by_cases h : n < 10
      · rw [decDigits_small n h]
        have : decodeDigits [Nat.digitChar n] = dval (Nat.digitChar n) := by
          simp [decodeDigits]
        rw [this, dval_digitChar n h]
      · rw [decDigits_large n h, decodeDigits_append_last,
            ih (n / 10) (by omega), dval_digitChar (n % 10) (by omega)]
        omega

/-- decDigits is injective. -/
theorem decDigits_inj {m n : Nat} (h : decDigits m = decDigits n) :
    m = n := by
  have h2 := congrArg decodeDigits h
  rwa [decodeDigits_decDigits, decodeDigits_decDigits] at h2

/-- The decimal string of a Nat determines the Nat: toString on Nat is
injective. -/
theorem natToString_inj {m n : Nat} (h : toString m = toString n) :
    m = n := by
  have h2 : (Nat.toDigits 10 m).asString = (Nat.toDigits 10 n).asString := h
  have h3 : Nat.toDigits 10 m = Nat.toDigits 10 n :=
    List.asString_inj.mp h2
  rw [toDigits_eq_decDigits, toDigits_eq_decDigits] at h3
  exact decDigits_inj h3

/-- Splitting a concatenation of three strings into character lists. -/
theorem string_append3_data (a b c : String) :
    (a ++ b ++ c).data = a.data ++ b.data ++ c.data := by
  simp [String.data_append]

/-- Cancellation of a shared prefix and suffix around toString. -/
theorem affix_toString_inj (pre suf : String) {m n : Nat}
    (h : pre ++ toString m ++ suf = pre ++ toString n ++ suf) : m = n := by
  have hd := congrArg String.data h
  rw [string_append3_data, string_append3_data] at hd
  have h1 := List.append_cancel_right hd
  have h2 := List.append_cancel_left h1
  have h3 : (toString m : String) = toString n := by
    apply String.toList_inj.mp
    exact h2
  exact natToString_inj h3

/-! Claim theorems. -/

/-- Claim C1: every POST /process request that carries a file part is
answered with status 500 and never reaches the success response, because
the drawtext filter construction references the identifier timestamp,
which no scope binds, so the promise executor throws, the await
rethrows, and the catch block sends the 500 error body whose details
field is the ReferenceError message. -/
theorem process_file_always_500 (env : Env) (ora : EngineOracle)
    (req : Request) (fs : FS) (f : UploadedFile) (h : req.file = some f) :
    processExecutorScope.contains "timestamp" = false ∧
    (processHandler env ora req fs).response.status = 500 ∧
    (processHandler env ora req fs).response.body =
      [("error", .jstr "Error interno del servidor"),
       ("details", .jstr "timestamp is not defined"),
       ("timestamp", .jstr env.isoNow)] ∧
    getField (processHandler env ora req fs).response.body "success" =
      none := by
  rw [processHandler_file env ora req fs f h]
  refine ⟨rfl, rfl, rfl, rfl⟩

/-- Witness for C1 at a concrete request carrying a file. -/
theorem process_file_always_500_witness :
    processExecutorScope.contains "timestamp" = false ∧
    (processHandler envX oraHappy reqX fsX).response.status = 500 ∧
    (processHandler envX oraHappy reqX fsX).response.body =
      [("error", .jstr "Error interno del servidor"),
       ("details", .jstr "timestamp is not defined"),
       ("timestamp", .jstr envX.isoNow)] ∧
    getField (processHandler envX oraHappy reqX fsX).response.body
      "success" = none :=
  process_file_always_500 envX oraHappy reqX fsX fileX rfl

/-- Claim C8: a request with no file part gets a 400 from either
endpoint, with the filesystem untouched, no engine invocation started
and no release calls made. -/
theorem missing_file_400 (env : Env) (ora : EngineOracle) (req : Request)
    (fs : FS) (h : req.file = none) :
    processHandler env ora req fs =
      { response := { status := 400, body := processMissingBody req },
        fs := fs, released := [], engineStarts := 0 } ∧
    thumbnailHandler env ora req fs =
      { response :=
          { status := 400,
            body := [("error",
                      .jstr "No se recibió ningún archivo de video")] },
        fs := fs, released := [], engineStarts := 0 } := by
  constructor
  · simp [processHandler, h]
  · simp [thumbnailHandler, h]

/-- Witness for C8 at a concrete request with no file part. -/
theorem missing_file_400_witness :
    processHandler envX oraHappy reqNoFile fsX =
      { response := { status := 400, body := processMissingBody reqNoFile },
        fs := fsX, released := [], engineStarts := 0 } ∧
    thumbnailHandler envX oraHappy reqNoFile fsX =
      { response :=
          { status := 400,
            body := [("error",
                      .jstr "No se recibió ningún archivo de video")] },
        fs := fsX, released := [], engineStarts := 0 } :=
  missing_file_400 envX oraHappy reqNoFile fsX rfl

/-- Claim C9: safeUnlink is idempotent, a no-op on a null path or a path
that does not exist, and a failing unlink of one path never prevents the
deletion of another path, since each removal is independently guarded by
its own try/catch. -/
theorem safeUnlink_contract :
    (∀ (fail : String → Bool) (p : Option String) (fs : FS),
       safeUnlink fail p (safeUnlink fail p fs) = safeUnlink fail p fs) ∧
    (∀ (fail : String → Bool) (fs : FS), safeUnlink fail none fs = fs) ∧
    (∀ (fail : String → Bool) (q : String) (fs : FS),
       fsExists q fs = false → safeUnlink fail (some q) fs = fs) ∧
    (∀ (fail : String → Bool) (p : Option String) (q : String) (fs : FS),
       fail q = false →
       fsExists q (safeUnlink fail (some q) (safeUnlink fail p fs)) =
         false) ∧
    (∀ (fail : String → Bool) (r q : String) (fs : FS), (r == q) = false →
       fsExists q (safeUnlink fail (some r) fs) = fsExists q fs) := by
  have hnoop : ∀ (fail : String → Bool) (q : String) (fs : FS),
      fsExists q fs = false → safeUnlink fail (some q) fs = fs := by
    intro fail q fs h
    simp [safeUnlink, safeUnlinkTry, h]
  refine ⟨?_, ?_, hnoop, ?_, ?_⟩
  · intro fail p fs
    match p with
    | none => rfl
    | some q =>
        cases he : fsExists q fs with
        | false =>
            rw [hnoop fail q fs he, hnoop fail q fs he]
        | true =>
            cases hf : fail q with
            | true =>
                have h1 : safeUnlink fail (some q) fs = fs := by
                  simp [safeUnlink, safeUnlinkTry, unlinkSync, he, hf]
                rw [h1, h1]
            | false =>
                have h1 : safeUnlink fail (some q) fs = fsRemove q fs := by
                  simp [safeUnlink, safeUnlinkTry, unlinkSync, he, hf]
                rw [h1, hnoop fail q (fsRemove q fs)
                      (fsExists_fsRemove_self q fs)]
  · intro fail fs; rfl
  · intro fail p q fs hq
    exact fsExists_safeUnlink_self fail q (safeUnlink fail p fs) hq
  · intro fail r q fs hrq
    rcases safeUnlink_cases fail (some r) fs with hc | ⟨r2, hr2, hc⟩
    · rw [hc]
    · cases hr2
      rw [hc]
      exact fsExists_fsRemove_other r q fs hrq

/-- Witness for C9: the independence part applied at concrete paths
where the first unlink is refused by the operating system. -/
theorem safeUnlink_contract_witness :
    fsExists "/tmp/outputs/b"
      (safeUnlink (fun p => p == "/tmp/uploads/a")
        (some "/tmp/outputs/b")
        (safeUnlink (fun p => p == "/tmp/uploads/a")
          (some "/tmp/uploads/a")
          [("/tmp/uploads/a", "in"), ("/tmp/outputs/b", "out")])) = false :=
  safeUnlink_contract.2.2.2.1 (fun p => p == "/tmp/uploads/a")
    (some "/tmp/uploads/a") "/tmp/outputs/b"
    [("/tmp/uploads/a", "in"), ("/tmp/outputs/b", "out")] rfl

/-- Claim C6: on every terminal state of a POST /process request that
got past intake, the handler releases all three temporary paths in
order, and, whenever the operating system allows the unlinks, none of
the three paths exists on disk afterwards, regardless of the engine
oracle (so in particular regardless of whether thumbnail generation
succeeded). -/
theorem process_cleanup_all_paths (env : Env) (ora : EngineOracle)
    (req : Request) (fs : FS) (f : UploadedFile) (h : req.file = some f)
    (h1 : ora.unlinkFails f.path = false)
    (h2 : ora.unlinkFails (processOutPath env) = false)
    (h3 : ora.unlinkFails (processThumbPath env) = false) :
    (processHandler env ora req fs).released =
      [some f.path, some (processOutPath env),
       some (processThumbPath env)] ∧
    fsExists f.path (processHandler env ora req fs).fs = false ∧
    fsExists (processOutPath env) (processHandler env ora req fs).fs =
      false ∧
    fsExists (processThumbPath env) (processHandler env ora req fs).fs =
      false := by
  rw [processHandler_file env ora req fs f h]
  refine ⟨rfl, ?_, ?_, ?_⟩
  · exact fsExists_safeUnlink_mono _ _ _ _
      (fsExists_safeUnlink_mono _ _ _ _
        (fsExists_safeUnlink_self _ _ _ h1))
  · exact fsExists_safeUnlink_mono _ _ _ _
      (fsExists_safeUnlink_self _ _ _ h2)
  · exact fsExists_safeUnlink_self _ _ _ h3

/-- Witness for C6 at a concrete request, environment and oracle. -/
theorem process_cleanup_all_paths_witness :
    (processHandler envX oraHappy reqX fsX).released =
      [some fileX.path, some (processOutPath envX),
       some (processThumbPath envX)] ∧
    fsExists fileX.path (processHandler envX oraHappy reqX fsX).fs =
      false ∧
    fsExists (processOutPath envX)
      (processHandler envX oraHappy reqX fsX).fs = false ∧
    fsExists (processThumbPath envX)
      (processHandler envX oraHappy reqX fsX).fs = false :=
  process_cleanup_all_paths envX oraHappy reqX fsX fileX rfl rfl rfl rfl

/-- Claim C3, counterexample: a concrete POST /thumbnail request whose
extraction engine signals failure is answered with a request-level 500
error response, so a thumbnail-extraction failure is not always
downgraded to a null thumbnail field. -/
theorem thumbnail_failure_aborts_cex :
    (thumbnailHandler envX oraThumbFail reqX fsX).response.status = 500 ∧
    getField (thumbnailHandler envX oraThumbFail reqX fsX).response.body
      "error" =
      some (.jstr "Error interno del servidor generando miniatura") ∧
    getField (thumbnailHandler envX oraThumbFail reqX fsX).response.body
      "thumbnail" = none :=
  ⟨rfl, rfl, rfl⟩

/-- Claim C3 as amended: inside POST /process the thumbnail try/catch
does downgrade an extraction failure to a null thumbnail, but the
standalone POST /thumbnail path surfaces an extraction failure or
timeout as a 500 error response carrying the engine diagnostic. -/
theorem thumbnail_failure_policy (env : Env) (ora : EngineOracle)
    (req : Request) (fs : FS) (f : UploadedFile) (src dst : String)
    (h : req.file = some f) (hfail : ora.thumbEnds = false) :
    processThumbStep ora src dst fs = (1, fs, none) ∧
    (thumbnailHandler env ora req fs).response.status = 500 ∧
    getField (thumbnailHandler env ora req fs).response.body "details" =
      some (.jstr ora.thumbErrMsg) := by
  refine ⟨?_, ?_⟩
  · simp [processThumbStep, thumbnailRun, hfail]
  · rw [show thumbnailHandler env ora req fs =
          { response :=
              { status := 500,
                body := thumbnailErrorBody env
                          (.engineError ora.thumbErrMsg) },
            fs := safeUnlink ora.unlinkFails
                    (some (pathJoin env.outputDir (thumbName env.nowThumb)))
                    (safeUnlink ora.unlinkFails (some f.path) fs),
            released := [some f.path,
                         some (pathJoin env.outputDir
                                 (thumbName env.nowThumb))],
            engineStarts := 1 }
        from by simp [thumbnailHandler, h, thumbnailBodyRun,
                      thumbnailRun, hfail]]
    exact ⟨rfl, rfl⟩

/-- Witness for the amended C3 at a concrete request and failing
extraction oracle. -/
theorem thumbnail_failure_policy_witness :
    processThumbStep oraThumbFail "/tmp/outputs/processed_11.mp4"
      "/tmp/outputs/thumbnail_12.jpg" fsX = (1, fsX, none) ∧
    (thumbnailHandler envX oraThumbFail reqX fsX).response.status = 500 ∧
    getField (thumbnailHandler envX oraThumbFail reqX fsX).response.body
      "details" = some (.jstr oraThumbFail.thumbErrMsg) :=
  thumbnail_failure_policy envX oraThumbFail reqX fsX fileX
    "/tmp/outputs/processed_11.mp4" "/tmp/outputs/thumbnail_12.jpg"
    rfl rfl

/-- Claim C4, counterexample: the concrete 400 missing-file response of
POST /process carries an error field but neither a details field nor a
timestamp field. -/
theorem error_body_400_missing_fields_cex :
    (processHandler envX oraHappy reqNoFile fsX).response.status = 400 ∧
    getField (processHandler envX oraHappy reqNoFile fsX).response.body
      "error" = some (.jstr "No se recibió ningún archivo de video") ∧
    getField (processHandler envX oraHappy reqNoFile fsX).response.body
      "details" = none ∧
    getField (processHandler envX oraHappy reqNoFile fsX).response.body
      "timestamp" = none :=
  ⟨rfl, rfl, rfl, rfl⟩

/-- Claim C4 as amended: the 500 failure responses of both endpoints
carry all three fields error, details and timestamp, but the 400
missing-file responses carry only an error string (plus, for
POST /process, an echo of the received parts) and no details or
timestamp. -/
theorem error_body_fields (env : Env) (e : JsError) (ora : EngineOracle)
    (req : Request) (fs : FS) (h : req.file = none) :
    (getField (processErrorBody env e) "error" =
       some (.jstr "Error interno del servidor") ∧
     getField (processErrorBody env e) "details" =
       some (.jstr e.message) ∧
     getField (processErrorBody env e) "timestamp" =
       some (.jstr env.isoNow)) ∧
    (getField (thumbnailErrorBody env e) "error" =
       some (.jstr "Error interno del servidor generando miniatura") ∧
     getField (thumbnailErrorBody env e) "details" =
       some (.jstr e.message) ∧
     getField (thumbnailErrorBody env e) "timestamp" =
       some (.jstr env.isoNow)) ∧
    ((processHandler env ora req fs).response.status = 400 ∧
     getField (processHandler env ora req fs).response.body "error" =
       some (.jstr "No se recibió ningún archivo de video") ∧
     getField (processHandler env ora req fs).response.body "details" =
       none ∧
     getField (processHandler env ora req fs).response.body "timestamp" =
       none) ∧
    ((thumbnailHandler env ora req fs).response.status = 400 ∧
     getField (thumbnailHandler env ora req fs).response.body "error" =
       some (.jstr "No se recibió ningún archivo de video") ∧
     getField (thumbnailHandler env ora req fs).response.body "details" =
       none ∧
     getField (thumbnailHandler env ora req fs).response.body
       "timestamp" = none) := by
  refine ⟨⟨rfl, rfl, rfl⟩, ⟨rfl, rfl, rfl⟩, ?_, ?_⟩
  · rw [show processHandler env ora req fs =
          { response := { status := 400, body := processMissingBody req },
            fs := fs, released := [], engineStarts := 0 }
        from by simp [processHandler, h]]
    exact ⟨rfl, rfl, rfl, rfl⟩
  · rw [show thumbnailHandler env ora req fs =
          { response :=
              { status := 400,
                body := [("error",
                          .jstr "No se recibió ningún archivo de video")] },
            fs := fs, released := [], engineStarts := 0 }
        from by simp [thumbnailHandler, h]]
    exact ⟨rfl, rfl, rfl, rfl⟩

/-- Witness for the amended C4 at a concrete error and request. -/
theorem error_body_fields_witness :
    (getField (processErrorBody envX (.engineError "boom")) "error" =
       some (.jstr "Error interno del servidor") ∧
     getField (processErrorBody envX (.engineError "boom")) "details" =
       some (.jstr (JsError.engineError "boom").message) ∧
     getField (processErrorBody envX (.engineError "boom")) "timestamp" =
       some (.jstr envX.isoNow)) ∧
    (getField (thumbnailErrorBody envX (.engineError "boom")) "error" =
       some (.jstr "Error interno del servidor generando miniatura") ∧
     getField (thumbnailErrorBody envX (.engineError "boom")) "details" =
       some (.jstr (JsError.engineError "boom").message) ∧
     getField (thumbnailErrorBody envX (.engineError "boom"))
       "timestamp" = some (.jstr envX.isoNow)) ∧
    ((processHandler envX oraHappy reqNoFile fsX).response.status = 400 ∧
     getField (processHandler envX oraHappy reqNoFile fsX).response.body
       "error" = some (.jstr "No se recibió ningún archivo de video") ∧
     getField (processHandler envX oraHappy reqNoFile fsX).response.body
       "details" = none ∧
     getField (processHandler envX oraHappy reqNoFile fsX).response.body
       "timestamp" = none) ∧
    ((thumbnailHandler envX oraHappy reqNoFile fsX).response.status =
       400 ∧
     getField
       (thumbnailHandler envX oraHappy reqNoFile fsX).response.body
       "error" = some (.jstr "No se recibió ningún archivo de video") ∧
     getField
       (thumbnailHandler envX oraHappy reqNoFile fsX).response.body
       "details" = none ∧
     getField
       (thumbnailHandler envX oraHappy reqNoFile fsX).response.body
       "timestamp" = none) :=
  error_body_fields envX (.engineError "boom") oraHappy reqNoFile fsX rfl

/-- Claim C2, code evaluation: no overlay conditional exists in the
code; the drawtext construction is attempted unconditionally and throws
the ReferenceError before the engine starts, so on a concrete request no
overlay is ever applied and no encoding happens, even with an engine
oracle that would succeed. -/
theorem overlay_never_applied :
    drawtextOptions processExecutorScope =
      .error (.referenceError "timestamp") ∧
    (transcodeRun processExecutorScope oraHappy fileX.path
       (processOutPath envX) fsX).starts = 0 ∧
    (processHandler envX oraHappy reqX fsX).engineStarts = 0 ∧
    (processHandler envX oraHappy reqX fsX).response.status = 500 :=
  ⟨rfl, rfl, rfl, rfl⟩

/-- Claim C5, code evaluation: with an oracle under which the transcode
would succeed and materialise its output while thumbnail extraction
fails, the concrete POST /process response is still the 500 error body,
not a 200 with a null thumbnail and a processedVideo payload. -/
theorem no_partial_success_response :
    oraThumbFail.transcodeEnds = true ∧
    oraThumbFail.transcodeOutput = some "TRANSCODED" ∧
    oraThumbFail.thumbEnds = false ∧
    (processHandler envX oraThumbFail reqX fsX).response.status = 500 ∧
    getField (processHandler envX oraThumbFail reqX fsX).response.body
      "processedVideo" = none ∧
    getField (processHandler envX oraThumbFail reqX fsX).response.body
      "thumbnail" = none :=
  ⟨rfl, rfl, rfl, rfl, rfl, rfl⟩

/-- Claim C7, code evaluation: with an oracle under which the engine
would signal success without materialising the output file, the concrete
POST /process response is a 500 whose details field is the
ReferenceError message, not the missing-output diagnostic of the
existsSync check at line 236, which is never reached. -/
theorem output_check_unreachable :
    oraNoOutput.transcodeEnds = true ∧
    oraNoOutput.transcodeOutput = none ∧
    (processHandler envX oraNoOutput reqX fsX).response.status = 500 ∧
    getField (processHandler envX oraNoOutput reqX fsX).response.body
      "details" = some (.jstr "timestamp is not defined") :=
  ⟨rfl, rfl, rfl, rfl⟩

/-- Claim C10, counterexample: two distinct requests that observe the
same Date.now() millisecond (exactly the simultaneous case) generate the
same output path, and the cleanup of one request removes the file of the
other. -/
theorem simultaneous_requests_collide_cex :
    envA ≠ envB ∧
    envA.nowOut = envB.nowOut ∧
    processOutPath envA = processOutPath envB ∧
    fsExists (processOutPath envA)
      [(processOutPath envA, "requestA-output")] = true ∧
    fsExists (processOutPath envA)
      (safeUnlink (fun _ => false) (some (processOutPath envB))
        [(processOutPath envA, "requestA-output")]) = false := by
  refine ⟨?_, rfl, rfl, rfl, rfl⟩
  intro h
  exact absurd (congrArg Env.isoNow h) (by decide)

/-- Claim C10 as amended: the generated output and thumbnail paths of
two POST /process requests are distinct whenever the two requests
observe different Date.now() values; the millisecond clock reading is
the only disambiguator, so only then is one request's cleanup unable to
touch the other's files. -/
theorem distinct_now_distinct_paths (dir : String) (n1 n2 : Nat)
    (h : n1 ≠ n2) :
    pathJoin dir (processedName n1) ≠ pathJoin dir (processedName n2) ∧
    pathJoin dir (thumbName n1) ≠ pathJoin dir (thumbName n2) := by
  constructor
  · intro he
    apply h
    have h2 : processedName n1 = processedName n2 := by
      have hd := congrArg String.data he
      simp only [pathJoin, String.data_append] at hd
      have h1 := List.append_cancel_left hd
      exact String.toList_inj.mp h1
    exact affix_toString_inj "processed_" ".mp4" h2
  · intro he
    apply h
    have h2 : thumbName n1 = thumbName n2 := by
      have hd := congrArg String.data he
      simp only [pathJoin, String.data_append] at hd
      have h1 := List.append_cancel_left hd
      exact String.toList_inj.mp h1
    exact affix_toString_inj "thumbnail_" ".jpg" h2

/-- Witness for the amended C10 at two concrete clock readings. -/
theorem distinct_now_distinct_paths_witness :
    pathJoin "/tmp/outputs" (processedName 1733000000000) ≠
      pathJoin "/tmp/outputs" (processedName 1733000000001) ∧
    pathJoin "/tmp/outputs" (thumbName 1733000000000) ≠
      pathJoin "/tmp/outputs" (thumbName 1733000000001) :=
  distinct_now_distinct_paths "/tmp/outputs" 1733000000000 1733000000001
    (by omega)

end VideoBackend
